import Mathlib

/-!
Verification of the EduBot server's comparison and grading logic.

The definitions below are shallow embeddings of the JavaScript functions in
`server/routes/auth.js`, `server/routes/faceRecognition.js`,
`server/routes/question.js`, `server/routes/user.js` and
`server/models/User.js` (the user schema embedded in `models/Subject.js`).
JavaScript numbers are modelled as real numbers, timestamps as natural
numbers of milliseconds since the epoch, and `Date.toDateString` equality as
equality of UTC day indices (millisecond timestamp divided by 86400000).
-/

namespace EduBot

/-- Sum of squared component-wise differences, the loop body of
`calculateSimilarity` (auth.js lines 280-284) and of
`calculateFaceSimilarity` (faceRecognition.js lines 275-279).
The loop runs over index `i` of the first vector; it is only reached when
the two vectors have equal length, which the structural recursion mirrors. -/
noncomputable def sumSquaredDiff : List ℝ → List ℝ → ℝ
  | x :: xs, y :: ys => (x - y) ^ 2 + sumSquaredDiff xs ys
  | _, _ => 0

/-- `Math.sqrt(sumSquaredDiff)`, the Euclidean norm of the element-wise
difference (auth.js line 286). -/
noncomputable def euclideanDistance (d1 d2 : List ℝ) : ℝ :=
  Real.sqrt (sumSquaredDiff d1 d2)

/-- Embedding of `calculateSimilarity` (auth.js lines 275-289), identical to
`calculateFaceSimilarity` (faceRecognition.js lines 269-286): return `0` on a
length mismatch, otherwise `Math.max(0, 1 - distance / Math.sqrt(length))`. -/
noncomputable def calculateSimilarity (d1 d2 : List ℝ) : ℝ :=
  if d1.length = d2.length then
    max 0 (1 - euclideanDistance d1 d2 / Real.sqrt d1.length)
  else 0

/-- The similarity formula as the specification states it (spec section 4.1):
`max(0, 1 - EuclideanDistance(v1, v2) / sqrt(length))` for equal-length
vectors.  Kept separate from `calculateSimilarity` so that the refinement
between code and spec is an explicit theorem. -/
noncomputable def specSimilarityFormula (v1 v2 : List ℝ) : ℝ :=
  max 0 (1 - euclideanDistance v1 v2 / Real.sqrt v1.length)

lemma sumSquaredDiff_self (v : List ℝ) : sumSquaredDiff v v = 0 := by
  induction v with
  | nil => rfl
  | cons a t ih => simp [sumSquaredDiff, ih]

lemma sumSquaredDiff_nonneg (v w : List ℝ) : 0 ≤ sumSquaredDiff v w := by
  induction v generalizing w with
  | nil => simp [sumSquaredDiff]
  | cons a t ih =>
    cases w with
    | nil => simp [sumSquaredDiff]
    | cons b u => exact add_nonneg (sq_nonneg _) (ih u)

lemma calculateSimilarity_self (v : List ℝ) : calculateSimilarity v v = 1 := by
  simp only [calculateSimilarity, if_pos rfl, euclideanDistance,
    sumSquaredDiff_self, Real.sqrt_zero, zero_div, sub_zero]
  exact max_eq_right zero_le_one

/-- Claim C1: the vector similarity scorer returns
`max(0, 1 - EuclideanDistance(v1, v2) / sqrt(length))` when the two vectors
have equal length, returns exactly `0` when their lengths differ, always
yields a value in `[0, 1]`, and satisfies `similarity(v, v) = 1` for every
vector `v`. -/
theorem claim_C1_similarity_scorer (v1 v2 : List ℝ) :
    (v1.length = v2.length → calculateSimilarity v1 v2 = specSimilarityFormula v1 v2) ∧
    (v1.length ≠ v2.length → calculateSimilarity v1 v2 = 0) ∧
    0 ≤ calculateSimilarity v1 v2 ∧ calculateSimilarity v1 v2 ≤ 1 ∧
    calculateSimilarity v1 v1 = 1 := by
  refine ⟨fun h => ?_, fun h => ?_, ?_, ?_, calculateSimilarity_self v1⟩
  · simp only [calculateSimilarity, if_pos h, specSimilarityFormula]
  · simp only [calculateSimilarity, if_neg h]
  · unfold calculateSimilarity
    split
    · exact le_max_left 0 _
    · exact le_refl 0
  · unfold calculateSimilarity
    split
    · refine max_le zero_le_one ?_
      have hq : 0 ≤ euclideanDistance v1 v2 / Real.sqrt v1.length :=
        div_nonneg (Real.sqrt_nonneg _) (Real.sqrt_nonneg _)
      linarith
    · exact zero_le_one

/-- Witness for C1 at concrete inputs: a length mismatch yields similarity 0. -/
theorem claim_C1_similarity_scorer_witness :
    calculateSimilarity [(1 : ℝ)] [1, 0] = 0 :=
  (claim_C1_similarity_scorer [(1 : ℝ)] [1, 0]).2.1 (by decide)

/-- Per-account progress aggregate, the `progress` sub-document of the user
schema (models/User.js).  `lastActiveDate` is a millisecond timestamp. -/
structure Progress where
  totalQuestions : ℕ
  correctAnswers : ℕ
  streakDays : ℕ
  lastActiveDate : ℕ
  points : ℕ
  deriving Repr, DecidableEq

/-- An account document with the fields the verified routes read or write
(models/User.js). -/
structure UserDoc where
  email : String
  isActive : Bool
  faceDescriptor : Option (List ℝ)
  progress : Progress

/-- The fixed similarity threshold of the face-login scan
(auth.js line 187). -/
noncomputable def threshold : ℝ := 0.6

/-- The similarity the face-login loop computes for one stored account:
`none` when the account has no stored descriptor or its length differs from
the query's (the guard on auth.js line 190), otherwise
`calculateSimilarity(query, stored)` (auth.js line 192). -/
noncomputable def uScore (query : List ℝ) (u : UserDoc) : Option ℝ :=
  match u.faceDescriptor with
  | none => none
  | some d => if d.length = query.length then some (calculateSimilarity query d) else none

open Classical in
/-- One iteration of the face-login loop (auth.js lines 189-198): the state
is `(matchedUser, bestMatch)`; a stored vector replaces the current best only
when its similarity exceeds both the threshold and the current best. -/
noncomputable def faceLoginStep (query : List ℝ) (st : Option UserDoc × ℝ)
    (u : UserDoc) : Option UserDoc × ℝ :=
  match uScore query u with
  | none => st
  | some s => if threshold < s ∧ st.2 < s then (some u, s) else st

/-- The whole face-login scan (auth.js lines 183-198), starting from
`matchedUser = null`, `bestMatch = 0`. -/
noncomputable def faceLoginScan (query : List ℝ) (users : List UserDoc) :
    Option UserDoc × ℝ :=
  users.foldl (faceLoginStep query) (none, 0)

/-- Status and message of the face-login response after the scan
(auth.js lines 200-238). -/
noncomputable def faceLoginOutcome (query : List ℝ) (users : List UserDoc) :
    ℕ × String :=
  match (faceLoginScan query users).1 with
  | none => (401, "Face not recognized")
  | some u =>
    if u.isActive then (200, "Face login successful")
    else (401, "Account is deactivated")

/-- Invariant of the face-login loop over the processed prefix: with no match
yet, the best score is still `0` and every processed eligible account scored
at most the threshold; with a match `w`, the best score is `w`'s score, it
exceeds the threshold, every eligible account processed before `w` scored
strictly less, and every eligible account processed after `w` scored at most
`w`'s score. -/
def scanInv (query : List ℝ) (processed : List UserDoc)
    (st : Option UserDoc × ℝ) : Prop :=
  match st with
  | (none, b) => b = 0 ∧ ∀ u ∈ processed, ∀ s, uScore query u = some s → s ≤ threshold
  | (some w, b) => uScore query w = some b ∧ threshold < b ∧
      ∃ pre post, processed = pre ++ w :: post ∧
        (∀ u ∈ pre, ∀ s, uScore query u = some s → s < b) ∧
        (∀ u ∈ post, ∀ s, uScore query u = some s → s ≤ b)

lemma threshold_pos : (0 : ℝ) < threshold := by norm_num [threshold]

lemma scanInv_step (query : List ℝ) (processed : List UserDoc)
    (st : Option UserDoc × ℝ) (u : UserDoc) (h : scanInv query processed st) :
    scanInv query (processed ++ [u]) (faceLoginStep query st u) := by
  obtain ⟨m, b⟩ := st
  cases hm : uScore query u with
  | none =>
    simp only [faceLoginStep, hm]
    cases m with
    | none =>
      refine ⟨h.1, fun v hv s hs => ?_⟩
      rcases List.mem_append.1 hv with hv | hv
      · exact h.2 v hv s hs
      · rw [List.mem_singleton.1 hv] at hs
        rw [hm] at hs
        exact absurd hs (by simp)
    | some w =>
      obtain ⟨hw, hb, pre, post, hsplit, hpre, hpost⟩ := h
      refine ⟨hw, hb, pre, post ++ [u], by rw [hsplit]; simp, hpre, ?_⟩
      intro v hv s hs
      rcases List.mem_append.1 hv with hv | hv
      · exact hpost v hv s hs
      · rw [List.mem_singleton.1 hv] at hs
        rw [hm] at hs
        exact absurd hs (by simp)
  | some s' =>
    simp only [faceLoginStep, hm]
    by_cases hc : threshold < s' ∧ b < s'
    · rw [if_pos hc]
      cases m with
      | none =>
        refine ⟨hm, hc.1, processed, [], by simp, fun v hv t ht => ?_, by simp⟩
        exact lt_of_le_of_lt (h.2 v hv t ht) hc.1
      | some w =>
        obtain ⟨hw, hb, pre, post, hsplit, hpre, hpost⟩ := h
        refine ⟨hm, hc.1, processed, [], by simp, fun v hv t ht => ?_, by simp⟩
        rw [hsplit] at hv
        rcases List.mem_append.1 hv with hv | hv
        · exact lt_trans (hpre v hv t ht) hc.2
        · rcases List.mem_cons.1 hv with hv | hv
          · rw [hv, hw] at ht
            rw [← Option.some_inj.1 ht]
            exact hc.2
          · exact lt_of_le_of_lt (hpost v hv t ht) hc.2
    · rw [if_neg hc]
      push_neg at hc
      cases m with
      | none =>
        refine ⟨h.1, fun v hv t ht => ?_⟩
        rcases List.mem_append.1 hv with hv | hv
        · exact h.2 v hv t ht
        · rw [List.mem_singleton.1 hv, hm] at ht
          have hst : s' = t := Option.some_inj.1 ht
          by_cases hts : threshold < s'
          · have hle := hc hts
            rw [h.1] at hle
            have := threshold_pos
            linarith
          · linarith [le_of_not_lt hts]
      | some w =>
        obtain ⟨hw, hb, pre, post, hsplit, hpre, hpost⟩ := h
        refine ⟨hw, hb, pre, post ++ [u], by rw [hsplit]; simp, hpre, ?_⟩
        intro v hv t ht
        rcases List.mem_append.1 hv with hv | hv
        · exact hpost v hv t ht
        · rw [List.mem_singleton.1 hv, hm] at ht
          have hst : s' = t := Option.some_inj.1 ht
          by_cases hts : threshold < s'
          · linarith [hc hts]
          · linarith [le_of_not_lt hts, le_of_lt hb]

lemma scanInv_foldl (query : List ℝ) (l : List UserDoc) :
    ∀ (processed : List UserDoc) (st : Option UserDoc × ℝ),
      scanInv query processed st →
      scanInv query (processed ++ l) (l.foldl (faceLoginStep query) st) := by
  induction l with
  | nil => intro processed st h; simpa using h
  | cons u t ih =>
    intro processed st h
    have h2 := ih (processed ++ [u]) (faceLoginStep query st u)
      (scanInv_step query processed st u h)
    simpa [List.append_assoc] using h2

lemma faceLoginScan_inv (query : List ℝ) (users : List UserDoc) :
    scanInv query users (faceLoginScan query users) := by
  have h0 : scanInv query [] ((none : Option UserDoc), (0 : ℝ)) := by
    exact ⟨rfl, by simp⟩
  simpa using scanInv_foldl query users [] (none, 0) h0

lemma uScore_some (query : List ℝ) (u : UserDoc) (s : ℝ)
    (h : uScore query u = some s) :
    ∃ d, u.faceDescriptor = some d ∧ d.length = query.length ∧
      s = calculateSimilarity query d := by
  unfold uScore at h
  cases hd : u.faceDescriptor with
  | none => rw [hd] at h; exact absurd h (by simp)
  | some d =>
    rw [hd] at h
    simp only at h
    split at h
    · exact ⟨d, rfl, by assumption, (Option.some_inj.1 h).symm⟩
    · exact absurd h (by simp)

/-- Claim C2: the face-login best-match selector scores only stored vectors
of matching length, accepts an account only when its similarity strictly
exceeds `0.6`, always returns an account when some stored vector clears the
threshold — and then the highest-scoring one, every eligible account seen
earlier having scored strictly less, so the earliest wins ties — and answers
401 when no stored vector clears the threshold. -/
theorem claim_C2_best_match_selector (query : List ℝ) (users : List UserDoc) :
    ((∀ u ∈ users, ∀ s, uScore query u = some s → s ≤ (0.6 : ℝ)) →
        (faceLoginScan query users).1 = none ∧
        (faceLoginOutcome query users).1 = 401) ∧
    (∀ w, (faceLoginScan query users).1 = some w →
        ∃ d, w.faceDescriptor = some d ∧ d.length = query.length ∧
          (0.6 : ℝ) < calculateSimilarity query d ∧
          (∀ u ∈ users, ∀ s, uScore query u = some s →
            s ≤ calculateSimilarity query d) ∧
          ∃ pre post, users = pre ++ w :: post ∧
            ∀ u ∈ pre, ∀ s, uScore query u = some s →
              s < calculateSimilarity query d) ∧
    ((∃ u ∈ users, ∃ s, uScore query u = some s ∧ (0.6 : ℝ) < s) →
        ∃ w, (faceLoginScan query users).1 = some w) := by
  have hinv := faceLoginScan_inv query users
  refine ⟨?_, ?_, ?_⟩
  · intro hall
    cases hscan : (faceLoginScan query users) with
    | mk m b =>
      rw [hscan] at hinv
      cases m with
      | none =>
        constructor
        · rfl
        · simp only [faceLoginOutcome, hscan]
      | some w =>
        obtain ⟨hw, hb, pre, post, hsplit, _, _⟩ := hinv
        have hmem : w ∈ users := by rw [hsplit]; simp
        have hle := hall w hmem b hw
        have hb6 : (0.6 : ℝ) < b := by
          have := hb
          rwa [threshold] at this
        exact absurd (lt_of_le_of_lt hle hb6) (lt_irrefl _)
  · intro w hw
    cases hscan : (faceLoginScan query users) with
    | mk m b =>
      rw [hscan] at hinv hw
      simp only at hw
      rw [hw] at hinv
      obtain ⟨hsc, hb, pre, post, hsplit, hpre, hpost⟩ := hinv
      obtain ⟨d, hd, hlen, hbval⟩ := uScore_some query w b hsc
      rw [hbval] at hb hpre hpost
      refine ⟨d, hd, hlen, ?_, ?_, pre, post, hsplit, hpre⟩
      · have := hb
        rwa [threshold] at this
      · intro u hu s hs
        rw [hsplit] at hu
        rcases List.mem_append.1 hu with hu | hu
        · exact le_of_lt (hpre u hu s hs)
        · rcases List.mem_cons.1 hu with hu | hu
          · rw [hu] at hs
            rw [hbval] at hsc
            rw [hs] at hsc
            rw [Option.some_inj.1 hsc]
          · exact hpost u hu s hs
  · rintro ⟨u, hu, s, hs, hgt⟩
    cases hscan : (faceLoginScan query users) with
    | mk m b =>
      rw [hscan] at hinv
      cases m with
      | none =>
        have hle : s ≤ (0.6 : ℝ) := hinv.2 u hu s hs
        exact absurd hgt (not_lt.mpr hle)
      | some w => exact ⟨w, rfl⟩

/-- Witness for C2 at concrete inputs: a single account whose stored
descriptor has mismatched length is never selected, so face-login answers
401; and an account whose stored descriptor equals the query (similarity 1,
above threshold) is selected. -/
theorem claim_C2_best_match_selector_witness :
    ((faceLoginScan [(0 : ℝ)]
        [⟨"a@b.com", true, some [1, 2], ⟨0, 0, 0, 0, 0⟩⟩]).1 = none ∧
      (faceLoginOutcome [(0 : ℝ)]
        [⟨"a@b.com", true, some [1, 2], ⟨0, 0, 0, 0, 0⟩⟩]).1 = 401) ∧
    (∃ w, (faceLoginScan [(0 : ℝ)]
        [⟨"a@b.com", true, some [0], ⟨0, 0, 0, 0, 0⟩⟩]).1 = some w) :=
  ⟨(claim_C2_best_match_selector [(0 : ℝ)]
      [⟨"a@b.com", true, some [1, 2], ⟨0, 0, 0, 0, 0⟩⟩]).1
    (by
      intro u hu s hs
      rw [List.mem_singleton.1 hu] at hs
      simp [uScore] at hs),
   (claim_C2_best_match_selector [(0 : ℝ)]
      [⟨"a@b.com", true, some [0], ⟨0, 0, 0, 0, 0⟩⟩]).2.2
    ⟨⟨"a@b.com", true, some [0], ⟨0, 0, 0, 0, 0⟩⟩, List.mem_singleton.2 rfl,
      calculateSimilarity [(0 : ℝ)] [(0 : ℝ)], by simp [uScore],
      by rw [calculateSimilarity_self]; norm_num⟩⟩

/-- Milliseconds in one day, the literal `86400000` of models/User.js
line 342. -/
def msPerDay : ℕ := 86400000

/-- The calendar day of a millisecond timestamp; models equality of
`Date.toDateString()` values (models/User.js lines 337-338) as equality of
UTC day indices. -/
def dayOf (t : ℕ) : ℕ := t / msPerDay

/-- Embedding of `userSchema.methods.updateProgress` (models/User.js lines
329-352): increment the question counter, add a correct answer and 10 points
when the answer is correct, and recompute the streak — unchanged on the same
calendar day, incremented when `lastActiveDate + 86400000 >= now`, reset to 1
otherwise; finally stamp `lastActiveDate` with the current time. -/
def updateProgress (p : Progress) (isCorrect : Bool) (now : ℕ) : Progress :=
  { totalQuestions := p.totalQuestions + 1
    correctAnswers := if isCorrect then p.correctAnswers + 1 else p.correctAnswers
    streakDays :=
      if dayOf now = dayOf p.lastActiveDate then p.streakDays
      else if now ≤ p.lastActiveDate + msPerDay then p.streakDays + 1
      else 1
    lastActiveDate := now
    points := if isCorrect then p.points + 10 else p.points }

/-- A fresh progress aggregate: the schema defaults of models/User.js lines
239-260 (all counters zero, `lastActiveDate` the creation time). -/
def freshProgress (t : ℕ) : Progress :=
  { totalQuestions := 0, correctAnswers := 0, streakDays := 0
    lastActiveDate := t, points := 0 }

/-- A sequence of grading calls on one account, each carrying the
correctness verdict and the wall-clock time of the call; models repeated
non-interleaved `updateProgress` invocations from
`POST /api/questions/validate-answer` (question.js line 162). -/
def runCalls (p : Progress) (calls : List (Bool × ℕ)) : Progress :=
  calls.foldl (fun q c => updateProgress q c.1 c.2) p

/-- The progress side effect of a successful `POST /api/questions/generate`
(question.js line 61): the route calls `user.updateProgress(false)`. -/
def generateQuestionsEffect (p : Progress) (now : ℕ) : Progress :=
  updateProgress p false now

/-- Claim C3 counterexample: with last activity at the epoch (day 0) and a
grading call at 90000000 ms (01:00 on day 1 — exactly one calendar day
later), the code resets a streak of 5 to 1 instead of incrementing it to 6,
because the gap exceeds the 24-hour window of models/User.js line 342. -/
theorem claim_C3_streak_counterexample :
    dayOf 90000000 = dayOf 0 + 1 ∧
    (updateProgress ⟨0, 0, 5, 0, 0⟩ true 90000000).streakDays = 1 ∧
    (updateProgress ⟨0, 0, 5, 0, 0⟩ true 90000000).streakDays ≠ 5 + 1 := by
  refine ⟨by decide, by decide, by decide⟩

/-- Claim C3 (amended): a grading call on the same calendar day as
`lastActiveDate` leaves the streak unchanged; on a different calendar day it
increments the streak exactly when the call is within 24 hours of
`lastActiveDate` and resets it to 1 otherwise; a gap of two or more calendar
days always resets the streak to 1. -/
theorem claim_C3_streak_amended (p : Progress) (b : Bool) (now : ℕ) :
    (dayOf now = dayOf p.lastActiveDate →
      (updateProgress p b now).streakDays = p.streakDays) ∧
    (dayOf now ≠ dayOf p.lastActiveDate → now ≤ p.lastActiveDate + msPerDay →
      (updateProgress p b now).streakDays = p.streakDays + 1) ∧
    (dayOf now ≠ dayOf p.lastActiveDate → p.lastActiveDate + msPerDay < now →
      (updateProgress p b now).streakDays = 1) ∧
    (dayOf p.lastActiveDate + 2 ≤ dayOf now →
      (updateProgress p b now).streakDays = 1) := by
  refine ⟨fun h => ?_, fun h h2 => ?_, fun h h2 => ?_, fun h => ?_⟩
  · simp [updateProgress, h]
  · simp [updateProgress, h, h2]
  · simp [updateProgress, h, not_le.mpr h2]
  · have hgap : p.lastActiveDate + msPerDay < now := by
      simp only [dayOf, msPerDay] at h ⊢
      omega
    have hne : dayOf now ≠ dayOf p.lastActiveDate := by
      simp only [dayOf, msPerDay] at h ⊢
      omega
    simp [updateProgress, hne, not_le.mpr hgap]

/-- Witness for the amended C3 at concrete inputs: a call 1000 ms after the
last activity on the same day leaves the streak unchanged. -/
theorem claim_C3_streak_amended_witness :
    (updateProgress ⟨3, 2, 4, 500, 20⟩ true 1500).streakDays = 4 :=
  (claim_C3_streak_amended ⟨3, 2, 4, 500, 20⟩ true 1500).1 (by decide)

lemma runCalls_counts (calls : List (Bool × ℕ)) :
    ∀ p : Progress,
      (runCalls p calls).totalQuestions = p.totalQuestions + calls.length ∧
      (runCalls p calls).correctAnswers
        = p.correctAnswers + calls.countP (fun c => c.1) ∧
      (runCalls p calls).points = p.points + 10 * calls.countP (fun c => c.1) := by
  induction calls with
  | nil => intro p; simp [runCalls]
  | cons c rest ih =>
    intro p
    obtain ⟨h1, h2, h3⟩ := ih (updateProgress p c.1 c.2)
    have e : runCalls p (c :: rest) = runCalls (updateProgress p c.1 c.2) rest := rfl
    rw [e, h1, h2, h3]
    cases hb : c.1 <;>
      simp [updateProgress, List.countP_cons, hb, Nat.mul_add] <;> omega

/-- Claim C4: starting from a fresh progress aggregate, a sequence of N
grading calls of which K are correct leaves `totalQuestions = N`,
`correctAnswers = K` and `points = 10 * K`; each individual call increments
`totalQuestions` by 1 and, exactly when the answer is correct, increments
`correctAnswers` by 1 and `points` by 10. -/
theorem claim_C4_progress_counters (t : ℕ) (calls : List (Bool × ℕ))
    (p : Progress) (b : Bool) (now : ℕ) :
    (runCalls (freshProgress t) calls).totalQuestions = calls.length ∧
    (runCalls (freshProgress t) calls).correctAnswers
      = calls.countP (fun c => c.1) ∧
    (runCalls (freshProgress t) calls).points
      = 10 * calls.countP (fun c => c.1) ∧
    (updateProgress p b now).totalQuestions = p.totalQuestions + 1 ∧
    (updateProgress p b now).correctAnswers
      = p.correctAnswers + (if b then 1 else 0) ∧
    (updateProgress p b now).points = p.points + (if b then 10 else 0) := by
  obtain ⟨h1, h2, h3⟩ := runCalls_counts calls (freshProgress t)
  refine ⟨by simpa [freshProgress] using h1, by simpa [freshProgress] using h2,
    by simpa [freshProgress] using h3, ?_, ?_, ?_⟩
  · simp [updateProgress]
  · cases b <;> simp [updateProgress]
  · cases b <;> simp [updateProgress]

/-- Claim C10: a successful question-generation call mutates the progress
aggregate exactly as grading an incorrect answer does — `totalQuestions`
gains 1, `lastActiveDate` and `streakDays` follow the incorrect-answer
update, while `correctAnswers` and `points` are unchanged. -/
theorem claim_C10_generate_frame_effect (p : Progress) (now : ℕ) :
    generateQuestionsEffect p now = updateProgress p false now ∧
    (generateQuestionsEffect p now).totalQuestions = p.totalQuestions + 1 ∧
    (generateQuestionsEffect p now).correctAnswers = p.correctAnswers ∧
    (generateQuestionsEffect p now).points = p.points ∧
    (generateQuestionsEffect p now).lastActiveDate = now ∧
    (generateQuestionsEffect p now).streakDays
      = (updateProgress p false now).streakDays := by
  refine ⟨rfl, ?_, ?_, ?_, ?_, rfl⟩ <;> simp [generateQuestionsEffect, updateProgress]

/-- The `{isCorrect, feedback, explanation}` triple produced by answer
validation (question.js lines 117-119 and the parse helpers). -/
structure GradeResult where
  isCorrect : Bool
  feedback : String
  explanation : String
  deriving Repr, DecidableEq

/-- The MCQ branch of `POST /api/questions/validate-answer`
(question.js lines 123-126): correctness is string equality of the submitted
and stored answers; no external call is made. -/
def gradeMCQ (answer correctAnswer : String) : GradeResult :=
  { isCorrect := answer == correctAnswer
    feedback := if answer == correctAnswer then ("Correct!") else ("Incorrect.")
    explanation := ("") }

/-- Claim C5: MCQ grading yields `isCorrect = true` exactly when the
submitted answer is string-equal to the stored correct answer, and it is a
pure deterministic function of that pair — identical inputs always yield
identical results. -/
theorem claim_C5_mcq_grading (a c a2 c2 : String) :
    ((gradeMCQ a c).isCorrect = true ↔ a = c) ∧
    (a = a2 → c = c2 → gradeMCQ a c = gradeMCQ a2 c2) := by
  constructor
  · simp [gradeMCQ]
  · intro h1 h2
    rw [h1, h2]

/-- Witness for C5 at the spec's example inputs: submitting the stored
answer grades correct, and equal input pairs grade identically. -/
theorem claim_C5_mcq_grading_witness :
    ((gradeMCQ ("A") ("A")).isCorrect = true ↔ ("A" : String) = ("A")) ∧
    gradeMCQ ("A") ("B") = gradeMCQ ("A") ("B") :=
  ⟨(claim_C5_mcq_grading ("A") ("A") ("A") ("A")).1,
   (claim_C5_mcq_grading ("A") ("B") ("A") ("B")).2 rfl rfl⟩

/-- The fields of the JSON object the external evaluator is asked to return
(question.js lines 293-298); each field may be absent, matching the
`|| default` fallbacks of the parse helpers. -/
structure EvalJson where
  isCorrect : Option Bool
  feedback : Option String
  explanation : Option String

/-- The regex extraction `text.match(/\x7b[\s\S]*\x7d/)` of question.js
lines 304 and 352: the substring from the first opening brace to the last
closing brace, or `none` when no such substring exists. -/
def extractJsonObject (s : String) : Option String :=
  let t := s.toList.dropWhile (fun c => c != '\x7b')
  let r := (t.reverse.dropWhile (fun c => c != '\x7d')).reverse
  if r.isEmpty then none else some (String.mk r)

/-- Embedding of `parseCodeEvaluation` (question.js lines 302-326).
`jsonParse` stands for the platform's `JSON.parse`, returning `none` where
the original throws; the surrounding `try/catch` turns that into the
generic failure result. -/
def parseCodeEvaluation (jsonParse : String → Option EvalJson)
    (text : String) : GradeResult :=
  match extractJsonObject text with
  | none =>
    { isCorrect := false, feedback := ("Unable to evaluate answer")
      explanation := ("Evaluation failed") }
  | some s =>
    match jsonParse s with
    | none =>
      { isCorrect := false, feedback := ("Error evaluating answer")
        explanation := ("Evaluation failed due to parsing error") }
    | some r =>
      { isCorrect := r.isCorrect.getD false
        feedback := r.feedback.getD ("No feedback provided")
        explanation := r.explanation.getD ("No explanation provided") }

/-- Embedding of `parseSQLEvaluation` (question.js lines 350-374); identical
to `parseCodeEvaluation` except for the failure messages. -/
def parseSQLEvaluation (jsonParse : String → Option EvalJson)
    (text : String) : GradeResult :=
  match extractJsonObject text with
  | none =>
    { isCorrect := false, feedback := ("Unable to evaluate SQL answer")
      explanation := ("Evaluation failed") }
  | some s =>
    match jsonParse s with
    | none =>
      { isCorrect := false, feedback := ("Error evaluating SQL answer")
        explanation := ("Evaluation failed due to parsing error") }
    | some r =>
      { isCorrect := r.isCorrect.getD false
        feedback := r.feedback.getD ("No feedback provided")
        explanation := r.explanation.getD ("No explanation provided") }

/-- Claim C6: when no JSON object can be extracted from the evaluator's
text, or the extracted substring fails to parse, both evaluation parsers
return a terminal negative result — `isCorrect = false` with a generic
failure feedback and explanation — instead of propagating an exception. -/
theorem claim_C6_parse_failure (jsonParse : String → Option EvalJson)
    (text : String) :
    (extractJsonObject text = none →
      parseCodeEvaluation jsonParse text =
        { isCorrect := false, feedback := ("Unable to evaluate answer")
          explanation := ("Evaluation failed") } ∧
      parseSQLEvaluation jsonParse text =
        { isCorrect := false, feedback := ("Unable to evaluate SQL answer")
          explanation := ("Evaluation failed") }) ∧
    (∀ s, extractJsonObject text = some s → jsonParse s = none →
      parseCodeEvaluation jsonParse text =
        { isCorrect := false, feedback := ("Error evaluating answer")
          explanation := ("Evaluation failed due to parsing error") } ∧
      parseSQLEvaluation jsonParse text =
        { isCorrect := false, feedback := ("Error evaluating SQL answer")
          explanation := ("Evaluation failed due to parsing error") }) := by
  constructor
  · intro h
    exact ⟨by simp [parseCodeEvaluation, h], by simp [parseSQLEvaluation, h]⟩
  · intro s h1 h2
    exact ⟨by simp [parseCodeEvaluation, h1, h2],
      by simp [parseSQLEvaluation, h1, h2]⟩

/-- Witness for C6 at a concrete input: evaluator text with no braces yields
the generic negative result from both parsers. -/
theorem claim_C6_parse_failure_witness :
    parseCodeEvaluation (fun _ => none) ("plain text") =
      { isCorrect := false, feedback := ("Unable to evaluate answer")
        explanation := ("Evaluation failed") } ∧
    parseSQLEvaluation (fun _ => none) ("plain text") =
      { isCorrect := false, feedback := ("Unable to evaluate SQL answer")
        explanation := ("Evaluation failed") } :=
  (claim_C6_parse_failure (fun _ => none) ("plain text")).1 (by rfl)

/-- ASCII lowercasing of one character, as JavaScript lowercasing acts on
the ASCII email strings of this application. -/
def lowerChar (c : Char) : Char :=
  if 65 ≤ c.toNat ∧ c.toNat ≤ 90 then Char.ofNat (c.toNat + 32) else c

/-- Email normalisation: the validator's `normalizeEmail()` (auth.js lines
19-22) together with the schema's `lowercase: true` (models/User.js line
175) store and look up emails lowercased. -/
def lowerString (s : String) : String :=
  String.mk (s.toList.map lowerChar)

/-- `User.findOne({email})` over the in-memory document list: the first
account whose stored email equals the (already normalised) lookup email. -/
def findOneByEmail (db : List UserDoc) (email : String) : Option UserDoc :=
  db.find? (fun u => u.email == email)

/-- Embedding of `POST /api/auth/register` (auth.js lines 43-99) restricted
to the fields the claims observe: the incoming email is lowercased (the
validator's `normalizeEmail()` together with the schema's `lowercase: true`),
a duplicate email aborts with 400 and leaves the store unchanged, otherwise
an account is created with the client-supplied face descriptor stored
verbatim (`faceDescriptor: faceDescriptor || null`, line 72). -/
def register (db : List UserDoc) (email : String)
    (faceDescriptor : Option (List ℝ)) (now : ℕ) : ℕ × List UserDoc :=
  let norm := lowerString email
  match findOneByEmail db norm with
  | some _ => (400, db)
  | none =>
    (201, db ++ [{ email := norm, isActive := true
                   faceDescriptor := faceDescriptor
                   progress := freshProgress now }])

/-- Embedding of `POST /api/auth/login` (auth.js lines 104-167).
`checkPw` stands for the bcrypt comparison `user.comparePassword`. -/
def login (checkPw : UserDoc → String → Bool) (db : List UserDoc)
    (email pw : String) : ℕ × String :=
  match findOneByEmail db (lowerString email) with
  | none => (401, "Invalid credentials")
  | some u =>
    if u.isActive = false then (401, "Account is deactivated")
    else if checkPw u pw = false then (401, "Invalid credentials")
    else (200, "Login successful")

/-- Embedding of `POST /api/user/face-register` (user.js lines 195-209): a
missing or non-array body is rejected with 400, otherwise the submitted
array is stored verbatim as the account's face descriptor — no length
check. -/
def userFaceRegister (u : UserDoc) (body : Option (List ℝ)) : ℕ × UserDoc :=
  match body with
  | none => (400, u)
  | some d => (200, { u with faceDescriptor := some d })

/-- The detection result of `simulateFaceDetection` (faceRecognition.js
lines 250-266): one face, and a descriptor of 128 values drawn from the
random generator `rand` (`Array.from({length: 128}, () => ...)`). -/
def simulatedFaceData (rand : ℕ → ℝ) : ℕ × List ℝ :=
  (1, (List.range 128).map rand)

/-- Embedding of `POST /api/face-recognition/register` (faceRecognition.js
lines 119-191): reject when the detection reports zero or several faces,
otherwise store the detected descriptor. -/
def faceRecRegister (u : UserDoc) (rand : ℕ → ℝ) : ℕ × UserDoc :=
  let faceData := simulatedFaceData rand
  if faceData.1 = 0 then (400, u)
  else if 1 < faceData.1 then (400, u)
  else (200, { u with faceDescriptor := some faceData.2 })

/-- A concrete account used by counterexamples and witnesses. -/
def demoUser : UserDoc :=
  { email := ("u@e.com"), isActive := true, faceDescriptor := none
    progress := freshProgress 0 }

/-- Claim C7 counterexample: `POST /api/user/face-register` accepts and
stores a 3-component face descriptor, so the 128-component invariant is not
preserved by every descriptor-writing operation. -/
theorem claim_C7_descriptor_length_counterexample :
    (userFaceRegister demoUser (some [1, 2, 3])).1 = 200 ∧
    (userFaceRegister demoUser (some [1, 2, 3])).2.faceDescriptor
      = some [1, 2, 3] ∧
    ([(1 : ℝ), 2, 3]).length ≠ 128 := by
  refine ⟨rfl, rfl, by decide⟩

/-- Claim C7 (amended): only `POST /api/face-recognition/register` preserves
the 128-component invariant — its simulated detection always produces a
128-component descriptor, which is what it stores; registration and
`POST /api/user/face-register` store the client-supplied array verbatim,
whatever its length. -/
theorem claim_C7_descriptor_length_amended (rand : ℕ → ℝ) (u : UserDoc)
    (d : List ℝ) (db : List UserDoc) (em : String) (fd : Option (List ℝ))
    (now : ℕ) :
    (simulatedFaceData rand).2.length = 128 ∧
    (faceRecRegister u rand).2.faceDescriptor
      = some ((simulatedFaceData rand).2) ∧
    (∀ e, (faceRecRegister u rand).2.faceDescriptor = some e →
      e.length = 128) ∧
    (userFaceRegister u (some d)).2.faceDescriptor = some d ∧
    (findOneByEmail db (lowerString em) = none →
      (register db em fd now).2
        = db ++ [{ email := lowerString em, isActive := true
                   faceDescriptor := fd
                   progress := freshProgress now }]) := by
  have hlen : (simulatedFaceData rand).2.length = 128 := by
    simp [simulatedFaceData]
  refine ⟨hlen, rfl, ?_, rfl, fun h => ?_⟩
  · intro e he
    have h2 : (faceRecRegister u rand).2.faceDescriptor
        = some ((simulatedFaceData rand).2) := rfl
    rw [h2] at he
    rw [← Option.some_inj.1 he]
    exact hlen
  · simp [register, h]

/-- Witness for the amended C7 at concrete inputs: the simulated detector
produces 128 components, and registration with an empty store records the
client's 2-component descriptor verbatim. -/
theorem claim_C7_descriptor_length_amended_witness :
    (simulatedFaceData (fun _ => (0 : ℝ))).2.length = 128 ∧
    (register [] ("e@f.com") (some [5, 6]) 0).2
      = [] ++ [{ email := lowerString ("e@f.com"), isActive := true
                 faceDescriptor := some [5, 6]
                 progress := freshProgress 0 }] :=
  ⟨(claim_C7_descriptor_length_amended (fun _ => (0 : ℝ)) demoUser []
      [] ("e@f.com") (some [5, 6]) 0).1,
   (claim_C7_descriptor_length_amended (fun _ => (0 : ℝ)) demoUser []
      [] ("e@f.com") (some [5, 6]) 0).2.2.2.2 rfl⟩

/-- A store holding a single deactivated account, for the C8
counterexample. -/
def demoDbInactive : List UserDoc :=
  [{ email := ("a@b.com"), isActive := false, faceDescriptor := none
     progress := freshProgress 0 }]

/-- Claim C8 counterexample: a login against a deactivated account and a
login with an unknown email both answer 401, but with different bodies
(`Account is deactivated` versus `Invalid credentials`), so the failure
causes are distinguishable. -/
theorem claim_C8_auth_failure_counterexample :
    (login (fun _ _ => true) demoDbInactive ("a@b.com") ("pw")).1 = 401 ∧
    (login (fun _ _ => true) demoDbInactive ("c@d.com") ("pw")).1 = 401 ∧
    (login (fun _ _ => true) demoDbInactive ("a@b.com") ("pw")).2
      ≠ (login (fun _ _ => true) demoDbInactive ("c@d.com") ("pw")).2 := by
  refine ⟨rfl, rfl, by decide⟩

/-- Claim C8 (amended): every failed authentication attempt — unknown email,
wrong password, deactivated account, or no face match above threshold —
answers HTTP 401, but the response bodies differ by cause: credential
failures say `Invalid credentials`, a deactivated account says
`Account is deactivated`, and a failed face scan says `Face not recognized`,
so the causes are distinguishable from the body. -/
theorem claim_C8_auth_failures_amended (checkPw : UserDoc → String → Bool)
    (db : List UserDoc) (email pw : String) (query : List ℝ)
    (users : List UserDoc) :
    (findOneByEmail db (lowerString email) = none →
      login checkPw db email pw = (401, "Invalid credentials")) ∧
    (∀ u, findOneByEmail db (lowerString email) = some u → u.isActive = false →
      login checkPw db email pw = (401, "Account is deactivated")) ∧
    (∀ u, findOneByEmail db (lowerString email) = some u → u.isActive = true →
      checkPw u pw = false →
      login checkPw db email pw = (401, "Invalid credentials")) ∧
    ((faceLoginScan query users).1 = none →
      faceLoginOutcome query users = (401, "Face not recognized")) ∧
    (∀ w, (faceLoginScan query users).1 = some w → w.isActive = false →
      faceLoginOutcome query users = (401, "Account is deactivated")) := by
  refine ⟨fun h => ?_, fun u h1 h2 => ?_, fun u h1 h2 h3 => ?_,
    fun h => ?_, fun w h1 h2 => ?_⟩
  · simp [login, h]
  · simp [login, h1, h2]
  · simp [login, h1, h2, h3]
  · simp [faceLoginOutcome, h]
  · simp [faceLoginOutcome, h1, h2]

/-- Witness for the amended C8 at concrete inputs: an unknown email on an
empty store answers 401 with the credentials body. -/
theorem claim_C8_auth_failures_amended_witness :
    login (fun _ _ => false) [] ("x@y.com") ("pw")
      = (401, "Invalid credentials") :=
  (claim_C8_auth_failures_amended (fun _ _ => false) [] ("x@y.com") ("pw")
    [] []).1 rfl

/-- Claim C9: assuming every stored email is already lowercase (the schema's
`lowercase: true`), registration with an email that case-insensitively
matches a stored account fails with 400 and leaves the store unchanged;
otherwise it creates exactly one account with the lowercased email, and
pairwise-distinct stored emails remain pairwise distinct. -/
theorem claim_C9_email_uniqueness (db : List UserDoc) (email : String)
    (fd : Option (List ℝ)) (now : ℕ)
    (hlow : ∀ u ∈ db, lowerString u.email = u.email) :
    ((∃ u ∈ db, lowerString u.email = lowerString email) →
      register db email fd now = (400, db)) ∧
    ((∀ u ∈ db, lowerString u.email ≠ lowerString email) →
      (register db email fd now).1 = 201 ∧
      (register db email fd now).2
        = db ++ [{ email := lowerString email, isActive := true
                   faceDescriptor := fd, progress := freshProgress now }] ∧
      (db.Pairwise (fun a b => a.email ≠ b.email) →
        (register db email fd now).2.Pairwise
          (fun a b => a.email ≠ b.email))) := by
  constructor
  · rintro ⟨u, hu, heq⟩
    have hpu : (fun v => v.email == lowerString email) u = true := by
      have he : u.email = lowerString email := by rw [← hlow u hu, heq]
      simp [he]
    have hs : (findOneByEmail db (lowerString email)).isSome := by
      unfold findOneByEmail
      exact List.find?_isSome.2 ⟨u, hu, hpu⟩
    cases hf : findOneByEmail db (lowerString email) with
    | none => rw [hf] at hs; simp at hs
    | some x => simp [register, hf]
  · intro hnone
    have hf : findOneByEmail db (lowerString email) = none := by
      unfold findOneByEmail
      rw [List.find?_eq_none]
      intro v hv
      simp only [beq_iff_eq]
      intro he
      exact hnone v hv (by rw [hlow v hv, he])
    refine ⟨by simp [register, hf], by simp [register, hf], fun hp => ?_⟩
    have hone : ∀ a ∈ db, a.email ≠ lowerString email := by
      intro a ha he
      exact hnone a ha (by rw [hlow a ha, he])
    simp only [register, hf]
    refine List.pairwise_append.2 ⟨hp, List.pairwise_singleton _ _, ?_⟩
    intro a ha b hb
    rw [List.mem_singleton.1 hb]
    exact hone a ha

/-- Witness for C9 at concrete inputs: registering `A@B.com` against a store
holding `a@b.com` is rejected with 400 and the store is unchanged. -/
theorem claim_C9_email_uniqueness_witness :
    register [{ email := ("a@b.com"), isActive := true, faceDescriptor := none
                progress := freshProgress 0 }] ("A@B.com") none 0
      = (400, [{ email := ("a@b.com"), isActive := true
                 faceDescriptor := none, progress := freshProgress 0 }]) :=
  (claim_C9_email_uniqueness
      [{ email := ("a@b.com"), isActive := true, faceDescriptor := none
         progress := freshProgress 0 }] ("A@B.com") none 0
      (by intro u hu; fin_cases hu; decide)).1
    ⟨_, List.mem_singleton.2 rfl, by decide⟩

end EduBot
